import Mathlib

/-!
Shallow embedding of the railway complaint analyzer.

Sources embedded here:
- `Backend/railway.py` : `save_log`, `classify_complaint`, `handle_complaint`
  (this variant has no fallback: a generative-backend exception propagates).
- `Backend/railw.py` : `handle_complaint` (variant with the try/except fallback)
  and `get_complaint_stats`.
- `flaskrail.py` : `get_complaint_stats`, `get_logs`, `emergency_alert`.

Modelling conventions:
- A log file is a `FileState`: `missing` (the path does not exist), `corrupt`
  (contents that fail to parse as JSON), or `entries l` (a JSON array that
  parses back to the list `l`; `json.dump` of a list of records followed by
  `json.load` returns the same list, so the array is kept as the list itself).
- The generative backend (`ollama.chat`) is external; a call outcome is a
  `GenResult`: either the raw message content, or `failure` (the call raised).
- Timestamps come from the clock; each `datetime.now()` call site is an
  explicit `String` parameter.
- Python string operations used by the code (`lower`, `in`, `startswith`,
  `strip`, `capitalize`, `replace`, slicing `[:60]`) are embedded as
  executable functions over `List Char` below.
-/

namespace Railway

/-- `headMatch needle hay` : the list `needle` is an initial segment of `hay`. -/
def headMatch : List Char → List Char → Bool
  | [], _ => true
  | _ :: _, [] => false
  | a :: as, b :: bs => a == b && headMatch as bs

/-- `containsSub hay needle` : Python `needle in hay`, contiguous substring
occurrence (an empty needle occurs in every haystack). -/
def containsSub : List Char → List Char → Bool
  | [], needle => needle.isEmpty
  | c :: t, needle => headMatch needle (c :: t) || containsSub t needle

/-- Python `s.lower()` (ASCII case folding, as used on the keyword scan). -/
def pyLower (s : String) : String :=
  String.mk (s.toList.map Char.toLower)

/-- Python `needle in hay` on strings. -/
def pyContains (hay needle : String) : Bool :=
  containsSub hay.toList needle.toList

/-- Python `s.startswith(t)`. -/
def pyStartsWith (s t : String) : Bool :=
  headMatch t.toList s.toList

/-- Python `s[:n]` for a character count `n`. -/
def pyTake (n : Nat) (s : String) : String :=
  String.mk (s.toList.take n)

/-- Python `s.capitalize()`: first character uppercased, the rest lowercased. -/
def pyCapitalize (s : String) : String :=
  match s.toList with
  | [] => ""
  | c :: rest => String.mk (c.toUpper :: rest.map Char.toLower)

/-- Python `s.strip()`: whitespace removed from both ends. -/
def pyStrip (s : String) : String :=
  String.mk (((s.toList.dropWhile Char.isWhitespace).reverse.dropWhile
    Char.isWhitespace).reverse)

/-- Python `s.replace(pat, rep)` on character lists, for a non-empty `pat`:
every non-overlapping occurrence, scanned left to right, is replaced. -/
def replaceList (s pat rep : List Char) : List Char :=
  match s with
  | [] => []
  | c :: t =>
    if pat ≠ [] && headMatch pat (c :: t) then
      rep ++ replaceList (t.drop (pat.length - 1)) pat rep
    else
      c :: replaceList t pat rep
termination_by s.length
decreasing_by
  · simp [List.length_drop]; omega
  · simp

/-- Python `s.replace(pat, rep)` on strings. -/
def pyReplace (s pat rep : String) : String :=
  String.mk (replaceList s.toList pat.toList rep.toList)

/-- The classifier verdict: the dict `{"urgent": ..., "reason": ...}`. -/
structure Classification where
  urgent : Bool
  reason : String
deriving DecidableEq

/-- The fixed ordered keyword list of `classify_complaint`. -/
def urgent_keywords : List String :=
  ["accident", "fire", "fight", "harassment", "theft",
   "safety", "injury", "medical", "emergency", "threat"]

/-- The `for word in urgent_keywords` loop body of `classify_complaint`:
return on the first keyword occurring in the lowercased text. -/
def classifyLoop (text : String) : List String → Classification
  | [] => { urgent := false, reason := "normal" }
  | word :: rest =>
    if pyContains (pyLower text) word then { urgent := true, reason := word }
    else classifyLoop text rest

/-- `classify_complaint` from `Backend/railway.py` (identical in
`Backend/railw.py`). -/
def classify_complaint (text : String) : Classification :=
  classifyLoop text urgent_keywords

/-- The persisted state of one log file. `missing` : the path does not exist;
`corrupt` : contents that fail to parse as JSON; `entries l` : a JSON array
parsing back to `l`. -/
inductive FileState (α : Type) where
  | missing : FileState α
  | corrupt : FileState α
  | entries : List α → FileState α
deriving DecidableEq

/-- `save_log` from `Backend/railway.py` (identical in `Backend/railw.py`):
read the existing array (missing file or JSONDecodeError gives `[]`), append
the entry, write the whole array back. -/
def save_log {α : Type} (file : FileState α) (entry : α) : FileState α :=
  let logs : List α :=
    match file with
    | .missing => []
    | .corrupt => []
    | .entries logs => logs
  FileState.entries (logs ++ [entry])

/-- The array obtained by parsing a log file tolerantly, as the read inside
`save_log` does: a missing or unparseable file reads as the empty array. -/
def readLog {α : Type} (file : FileState α) : List α :=
  match file with
  | .missing => []
  | .corrupt => []
  | .entries logs => logs

/-- A general chat-log record, as built by `handle_complaint`. -/
structure LogEntry where
  timestamp : String
  complaint : String
  response : String
  urgent : Bool
  reason : String
deriving DecidableEq

/-- An urgent/normal summary record, as built by `handle_complaint`. -/
structure SummaryEntry where
  timestamp : String
  summary : String
deriving DecidableEq

/-- An emergency record, as built by `emergency_alert` in `flaskrail.py`. -/
structure EmergencyEntry where
  timestamp : String
  complaint : String
  type : String
  status : String
  priority : String
deriving DecidableEq

/-- The four log files the program writes, one `FileState` each:
`chat_logs.json`, `urgent_logs.json`, `normal_logs.json`,
`emergency_logs.json`. -/
structure World where
  chat_log : FileState LogEntry
  urgent_log : FileState SummaryEntry
  normal_log : FileState SummaryEntry
  emergency_log : FileState EmergencyEntry
deriving DecidableEq

/-- A world with none of the four log files present yet. -/
def emptyWorld : World :=
  { chat_log := FileState.missing, urgent_log := FileState.missing,
    normal_log := FileState.missing, emergency_log := FileState.missing }

/-- Outcome of one `ollama.chat` call: the raw message content on success,
or `failure` when the call raised. -/
inductive GenResult where
  | ok : String → GenResult
  | failure : GenResult
deriving DecidableEq

/-- The structured result returned by `handle_complaint` in
`Backend/railw.py`. -/
structure HandleResult where
  response : String
  urgent : Bool
  reason : String
deriving DecidableEq

/-- The urgent-branch fallback reply template of `handle_complaint` in
`Backend/railw.py`. -/
def urgentFallback (reason now : String) : String :=
  "Thank you for reporting this " ++ reason ++
    " issue. This has been marked as URGENT and will be escalated to railway authorities immediately. Your complaint has been logged with timestamp " ++
    now ++ "."

/-- The normal-branch fallback reply template of `handle_complaint` in
`Backend/railw.py`. -/
def normalFallback (now : String) : String :=
  "Thank you for your complaint. We have recorded your concern about railway services. Your feedback is valuable and will be addressed by the appropriate department. Complaint logged at " ++
    now ++ "."

/-- The urgent summary string built by both `handle_complaint` variants. -/
def urgentSummary (reason prompt : String) : String :=
  "URGENT: " ++ pyCapitalize reason ++ " issue - " ++ pyTake 60 prompt ++ "..."

/-- The normal summary string built by both `handle_complaint` variants. -/
def normalSummary (prompt : String) : String :=
  "NORMAL: " ++ pyTake 60 prompt ++ "..."

/-- `handle_complaint` from `Backend/railw.py`: classify, try the generative
backend, on failure synthesize the templated fallback reply, append the full
record to the chat log and a summary to the urgent or the normal log, return
the structured result. `now` is the timestamp captured at entry; `gen` is the
outcome of the `ollama.chat` call. -/
def handle_complaint (now prompt : String) (gen : GenResult) (w : World) :
    HandleResult × World :=
  let classification := classify_complaint prompt
  let ai_reply : String :=
    match gen with
    | .ok content => pyStrip content
    | .failure =>
      if classification.urgent then urgentFallback classification.reason now
      else normalFallback now
  let entry : LogEntry :=
    { timestamp := now, complaint := prompt, response := ai_reply,
      urgent := classification.urgent, reason := classification.reason }
  let w := { w with chat_log := save_log w.chat_log entry }
  let uEntry : SummaryEntry :=
    { timestamp := now, summary := urgentSummary classification.reason prompt }
  let nEntry : SummaryEntry :=
    { timestamp := now, summary := normalSummary prompt }
  let w :=
    if classification.urgent then
      { w with urgent_log := save_log w.urgent_log uEntry }
    else
      { w with normal_log := save_log w.normal_log nEntry }
  ({ response := ai_reply, urgent := classification.urgent,
     reason := classification.reason }, w)

/-- `handle_complaint` from `Backend/railway.py`: same pipeline but with no
try/except around the `ollama.chat` call, so a backend failure raises out of
the function before any log write; modelled as `Except.error`. On success it
returns the reply string. -/
def handle_complaint_railway (now prompt : String) (gen : GenResult)
    (w : World) : Except Unit (String × World) :=
  let classification := classify_complaint prompt
  match gen with
  | .failure => Except.error ()
  | .ok content =>
    let ai_reply := pyStrip content
    let entry : LogEntry :=
      { timestamp := now, complaint := prompt, response := ai_reply,
        urgent := classification.urgent, reason := classification.reason }
    let w := { w with chat_log := save_log w.chat_log entry }
    let uEntry : SummaryEntry :=
      { timestamp := now, summary := urgentSummary classification.reason prompt }
    let nEntry : SummaryEntry :=
      { timestamp := now, summary := normalSummary prompt }
    let w :=
      if classification.urgent then
        { w with urgent_log := save_log w.urgent_log uEntry }
      else
        { w with normal_log := save_log w.normal_log nEntry }
    Except.ok (ai_reply, w)

/-- The statistics dict of `get_complaint_stats`. -/
structure Stats where
  total_complaints : Nat
  urgent_complaints : Nat
  normal_complaints : Nat
  today_complaints : Nat
deriving DecidableEq

/-- The all-zero statistics dict that `get_complaint_stats` starts from and
returns when `chat_logs.json` is missing or unreadable. -/
def zeroStats : Stats :=
  { total_complaints := 0, urgent_complaints := 0, normal_complaints := 0,
    today_complaints := 0 }

/-- `get_complaint_stats` from `flaskrail.py` (identical in
`Backend/railw.py`): if the chat log exists and parses, `total` is its
length and the loop counts the urgent flag partition and the entries whose
timestamp starts with the current date string; a missing file or a parse
failure (bare except) leaves the zero dict. `today` is the
`datetime.now().strftime` date string at call time. -/
def get_complaint_stats (chatFile : FileState LogEntry) (today : String) :
    Stats :=
  match chatFile with
  | .missing => zeroStats
  | .corrupt => zeroStats
  | .entries chat_logs =>
    { total_complaints := chat_logs.length
      urgent_complaints := chat_logs.countP (fun log => log.urgent)
      normal_complaints := chat_logs.countP (fun log => !log.urgent)
      today_complaints :=
        chat_logs.countP (fun log => pyStartsWith log.timestamp today) }

/-- The stats call as a state transformer on the whole `World`: it reads the
chat log only and performs no write, so the world comes back unchanged. -/
def statsOp (w : World) (today : String) : Stats × World :=
  (get_complaint_stats w.chat_log today, w)

/-- Outcome of the `get_logs` route: `ok data` is a success response with
the given list, `invalidType` the 400 invalid-log-type rejection, and
`serverError` the 500 response produced when reading or parsing raised. -/
inductive LogsResult (α : Type) where
  | ok : List α → LogsResult α
  | invalidType : LogsResult α
  | serverError : LogsResult α
deriving DecidableEq

/-- The keys of the `log_files` dict in the `get_logs` route. -/
def log_types : List String := ["chat", "urgent", "normal"]

/-- The body of the `get_logs` route once the log type was accepted, applied
to the file the `log_files` dict names: a missing file is a success with an
empty list, a parse failure raises into the except branch (500), and a
parsed array is truncated to its last 50 entries and reversed. -/
def fetch_logs {α : Type} (file : FileState α) : LogsResult α :=
  match file with
  | .missing => LogsResult.ok []
  | .corrupt => LogsResult.serverError
  | .entries logs =>
    LogsResult.ok
      (if logs.length > 50 then (logs.drop (logs.length - 50)).reverse
       else logs.reverse)

/-- `get_logs` from `flaskrail.py`: reject a log type outside the
`log_files` dict with the 400 response, else serve the file that the dict
maps the type to (passed here as `file`). -/
def get_logs {α : Type} (log_type : String) (file : FileState α) :
    LogsResult α :=
  if log_type ∈ log_types then fetch_logs file else LogsResult.invalidType

/-- The success payload of the `emergency_alert` route. -/
structure EmergencyOk where
  response : String
  urgent : Bool
  reason : String
  reference_id : String
deriving DecidableEq

/-- Outcome of the `emergency_alert` route: `badRequest` is the 400 response
for empty text, `serverError` the 500 response when the complaint handler
raised, `ok` the success response. -/
inductive EmergencyResult where
  | badRequest : EmergencyResult
  | serverError : EmergencyResult
  | ok : EmergencyOk → EmergencyResult
deriving DecidableEq

/-- Whether an `EmergencyResult` is the success response. -/
def EmergencyResult.isOk : EmergencyResult → Bool
  | .ok _ => true
  | _ => false

/-- The urgent field of a success response (`false` otherwise). -/
def EmergencyResult.urgentOf : EmergencyResult → Bool
  | .ok d => d.urgent
  | _ => false

/-- The reason field of a success response (empty otherwise). -/
def EmergencyResult.reasonOf : EmergencyResult → String
  | .ok d => d.reason
  | _ => ""

/-- The reference id of a success response (empty otherwise). -/
def EmergencyResult.refOf : EmergencyResult → String
  | .ok d => d.reference_id
  | _ => ""

/-- The reference id built by `emergency_alert`:
`EMR-` plus the timestamp with spaces replaced by dashes and colons
removed. -/
def referenceId (timestamp : String) : String :=
  "EMR-" ++ pyReplace (pyReplace timestamp " " "-") ":" ""

/-- The fixed acknowledgment used when the complaint handler is not
loaded. -/
def emergencyAck : String :=
  "Emergency complaint received and escalated to railway authorities immediately."

/-- `emergency_alert` from `flaskrail.py`: reject empty text (400); append
the CRITICAL emergency record to `emergency_logs.json` (reading it with the
same tolerance as `save_log`); then, when the imported handler is loaded,
run `handle_complaint` from `Backend/railway.py` (a raise there lands in the
outer except as a 500, after the emergency write already happened), else
substitute the fixed acknowledgment; a success response hardcodes
urgent true, reason "emergency" and the timestamp-derived reference id.
`timestamp` is the `datetime.now()` string of the route, `ts2` the one the
handler captures at its own entry. -/
def emergency_alert (timestamp ts2 rawComplaint : String)
    (handlerAvailable : Bool) (gen : GenResult) (w : World) :
    EmergencyResult × World :=
  let complaint := pyStrip rawComplaint
  if complaint = "" then (EmergencyResult.badRequest, w)
  else
    let emergency_entry : EmergencyEntry :=
      { timestamp := timestamp, complaint := complaint,
        type := "EMERGENCY", status := "ESCALATED", priority := "CRITICAL" }
    let w := { w with emergency_log := save_log w.emergency_log emergency_entry }
    if handlerAvailable then
      match handle_complaint_railway ts2 complaint gen w with
      | Except.error _ => (EmergencyResult.serverError, w)
      | Except.ok (response, w2) =>
        (EmergencyResult.ok
          { response := response, urgent := true, reason := "emergency",
            reference_id := referenceId timestamp }, w2)
    else
      (EmergencyResult.ok
        { response := emergencyAck, urgent := true, reason := "emergency",
          reference_id := referenceId timestamp }, w)

/-! ## Helper lemmas -/

theorem headMatch_append_self (xs ys : List Char) :
    headMatch xs (xs ++ ys) = true := by
  induction xs with
  | nil => rfl
  | cons a as ih => simp [headMatch, ih]

theorem containsSub_of_headMatch {hay needle : List Char}
    (h : headMatch needle hay = true) : containsSub hay needle = true := by
  cases hay with
  | nil =>
    cases needle with
    | nil => rfl
    | cons a as => simp [headMatch] at h
  | cons c t => simp [containsSub, h]

theorem containsSub_cons {t needle : List Char} (c : Char)
    (h : containsSub t needle = true) : containsSub (c :: t) needle = true := by
  simp [containsSub, h]

theorem containsSub_append_left (xs : List Char) {t needle : List Char}
    (h : containsSub t needle = true) : containsSub (xs ++ t) needle = true := by
  induction xs with
  | nil => simpa using h
  | cons a as ih => exact containsSub_cons a ih

theorem containsSub_mid (xs needle ys : List Char) :
    containsSub (xs ++ (needle ++ ys)) needle = true :=
  containsSub_append_left xs
    (containsSub_of_headMatch (headMatch_append_self needle ys))

theorem pyContains_append_mid (a b c : String) :
    pyContains (a ++ b ++ c) b = true := by
  show containsSub (a ++ b ++ c).data b.data = true
  have h : (a ++ b ++ c).data = a.data ++ (b.data ++ c.data) := by
    show (a.data ++ b.data) ++ c.data = a.data ++ (b.data ++ c.data)
    exact List.append_assoc a.data b.data c.data
  rw [h]
  exact containsSub_mid a.data b.data c.data

theorem string_append_ne_empty_left (a b : String) (h : a.data ≠ []) :
    a ++ b ≠ "" := by
  intro e
  apply h
  have hd : (a ++ b).data = ([] : List Char) := by rw [e]
  have hd2 : a.data ++ b.data = ([] : List Char) := hd
  exact (List.append_eq_nil.mp hd2).1

theorem string_assoc4 (a b c d : String) :
    a ++ b ++ c ++ d = a ++ (b ++ (c ++ d)) := by
  apply String.ext
  show ((a.data ++ b.data) ++ c.data) ++ d.data
      = a.data ++ (b.data ++ (c.data ++ d.data))
  simp [List.append_assoc]

/-! ## Classifier lemmas -/

theorem classifyLoop_not_found (text : String) :
    ∀ ws : List String, (∀ w ∈ ws, pyContains (pyLower text) w = false) →
      classifyLoop text ws = { urgent := false, reason := "normal" } := by
  intro ws
  induction ws with
  | nil => intro _; rfl
  | cons w rest ih =>
    intro h
    have hw := h w (by simp)
    simp [classifyLoop, hw]
    exact ih (fun x hx => h x (by simp [hx]))

theorem classifyLoop_urgent_of_mem (text : String) :
    ∀ ws : List String,
      (∃ w ∈ ws, pyContains (pyLower text) w = true) →
      (classifyLoop text ws).urgent = true := by
  intro ws
  induction ws with
  | nil =>
    rintro ⟨w, hw, _⟩
    simp at hw
  | cons w rest ih =>
    rintro ⟨x, hx, hocc⟩
    by_cases hw : pyContains (pyLower text) w = true
    · simp [classifyLoop, hw]
    · have hwf : pyContains (pyLower text) w = false :=
        Bool.not_eq_true _ ▸ Bool.of_not_eq_true hw
      simp [classifyLoop, hwf]
      rcases List.mem_cons.mp hx with he | hmem
      · exact absurd (he ▸ hocc) hw
      · exact ih ⟨x, hmem, hocc⟩

theorem classifyLoop_first_match (text : String) :
    ∀ (ws : List String) (i : Nat), i < ws.length →
      pyContains (pyLower text) (ws.getD i "") = true →
      (∀ j, j < i → pyContains (pyLower text) (ws.getD j "") = false) →
      classifyLoop text ws = { urgent := true, reason := ws.getD i "" } := by
  intro ws
  induction ws with
  | nil => intro i hi; simp at hi
  | cons w rest ih =>
    intro i hi hocc hearlier
    cases i with
    | zero =>
      rw [List.getD_cons_zero] at hocc ⊢
      simp [classifyLoop, hocc]
    | succ k =>
      have h0 := hearlier 0 (Nat.succ_pos k)
      rw [List.getD_cons_zero] at h0
      rw [List.getD_cons_succ] at hocc ⊢
      have hstep : classifyLoop text (w :: rest) = classifyLoop text rest := by
        simp [classifyLoop, h0]
      rw [hstep]
      exact ih k (by simpa using hi) hocc
        (fun j hj => by
          have := hearlier (j + 1) (by omega)
          rwa [List.getD_cons_succ] at this)

/-! ## Claims -/

/-- C1: for every input string, `classify_complaint` lowercases the text and
scans the fixed ordered keyword list; if no keyword occurs as a substring it
returns urgent false with reason "normal"; if at least one occurs it returns
urgent true, and the reason is the keyword earliest in the list order,
regardless of where the keywords sit in the text. -/
theorem claim1_classifier_first_keyword (text : String) :
    ((∀ w ∈ urgent_keywords, pyContains (pyLower text) w = false) →
        classify_complaint text = { urgent := false, reason := "normal" })
    ∧ ((∃ w ∈ urgent_keywords, pyContains (pyLower text) w = true) →
        (classify_complaint text).urgent = true)
    ∧ (∀ i, i < urgent_keywords.length →
        pyContains (pyLower text) (urgent_keywords.getD i "") = true →
        (∀ j, j < i →
          pyContains (pyLower text) (urgent_keywords.getD j "") = false) →
        classify_complaint text =
          { urgent := true, reason := urgent_keywords.getD i "" }) := by
  refine ⟨fun h => classifyLoop_not_found text urgent_keywords h,
    fun h => classifyLoop_urgent_of_mem text urgent_keywords h,
    fun i hi hocc hearlier =>
      classifyLoop_first_match text urgent_keywords i hi hocc hearlier⟩

/-- C1 witness: "theft" appears first in the text but "fire" is earlier in
the keyword list, so the reason is "fire". -/
theorem claim1_witness :
    classify_complaint "Theft and FIRE on platform 2" =
      { urgent := true, reason := "fire" } := by
  have h := (claim1_classifier_first_keyword "Theft and FIRE on platform 2").2.2
    1 (by decide) (by decide) (by decide)
  simpa using h

theorem string_concat5_ne_empty (a b c d e : String) (ha : a.data ≠ []) :
    a ++ b ++ c ++ d ++ e ≠ "" := by
  intro h
  have hd : (a ++ b ++ c ++ d ++ e).data = [] := by rw [h]
  have hd2 : (((a.data ++ b.data) ++ c.data) ++ d.data) ++ e.data = [] := hd
  exact ha (List.append_eq_nil.mp (List.append_eq_nil.mp
    (List.append_eq_nil.mp (List.append_eq_nil.mp hd2).1).1).1).1

theorem string_concat3_ne_empty (a b c : String) (ha : a.data ≠ []) :
    a ++ b ++ c ≠ "" := by
  intro h
  have hd : (a ++ b ++ c).data = [] := by rw [h]
  have hd2 : (a.data ++ b.data) ++ c.data = [] := hd
  exact ha (List.append_eq_nil.mp (List.append_eq_nil.mp hd2).1).1

theorem urgentFallback_contains_now (reason now : String) :
    pyContains (urgentFallback reason now) now = true :=
  pyContains_append_mid _ now "."

theorem string_reassoc5 (a b c d e : String) :
    a ++ b ++ c ++ d ++ e = a ++ b ++ (c ++ (d ++ e)) := by
  apply String.ext
  show (((a.data ++ b.data) ++ c.data) ++ d.data) ++ e.data
      = (a.data ++ b.data) ++ (c.data ++ (d.data ++ e.data))
  simp [List.append_assoc]

theorem urgentFallback_contains_reason (reason now : String) :
    pyContains (urgentFallback reason now) reason = true := by
  rw [urgentFallback, string_reassoc5]
  exact pyContains_append_mid _ reason _

theorem normalFallback_contains_now (now : String) :
    pyContains (normalFallback now) now = true :=
  pyContains_append_mid _ now "."

theorem urgentFallback_ne_empty (reason now : String) :
    urgentFallback reason now ≠ "" :=
  string_concat5_ne_empty _ _ _ _ _ (by decide)

theorem normalFallback_ne_empty (now : String) :
    normalFallback now ≠ "" :=
  string_concat3_ne_empty _ _ _ (by decide)

/-- C2 (amended): in the `Backend/railw.py` variant of `handle_complaint`,
when the generative backend call fails the function still returns a
response: the deterministic fallback template for the classification, which
is non-empty, embeds the entry timestamp, and for urgent classifications
embeds the matched reason; the failure is not surfaced (the function is
total and returns the structured result). The claim as stated over the
`Backend/railway.py` variant is refuted by `claim2_counterexample`. -/
theorem claim2_fallback_reply (now prompt : String) (w : World)
    (_hne : prompt ≠ "") :
    (handle_complaint now prompt GenResult.failure w).1.response =
      (if (classify_complaint prompt).urgent then
        urgentFallback (classify_complaint prompt).reason now
      else normalFallback now)
    ∧ (handle_complaint now prompt GenResult.failure w).1.response ≠ ""
    ∧ pyContains (handle_complaint now prompt GenResult.failure w).1.response
        now = true
    ∧ ((classify_complaint prompt).urgent = true →
        pyContains (handle_complaint now prompt GenResult.failure w).1.response
          (classify_complaint prompt).reason = true) := by
  have hresp : (handle_complaint now prompt GenResult.failure w).1.response =
      (if (classify_complaint prompt).urgent then
        urgentFallback (classify_complaint prompt).reason now
      else normalFallback now) := rfl
  refine ⟨hresp, ?_, ?_, ?_⟩ <;> rw [hresp] <;>
    cases hu : (classify_complaint prompt).urgent
  · simp only [Bool.false_eq_true, if_false]
    exact normalFallback_ne_empty now
  · simp only [if_true]
    exact urgentFallback_ne_empty _ now
  · simp only [Bool.false_eq_true, if_false]
    exact normalFallback_contains_now now
  · simp only [if_true]
    exact urgentFallback_contains_now _ now
  · intro h; cases h
  · intro _
    simp only [if_true]
    exact urgentFallback_contains_reason _ now

/-- C2 counterexample: the claim as stated fails on the code of
`Backend/railway.py` (the variant imported by `flaskrail.py`): with a
failing backend, its `handle_complaint` raises before any write and returns
no response at all. -/
theorem claim2_counterexample :
    handle_complaint_railway "2024-01-01 10:00:00"
      "there was a fire in coach B3" GenResult.failure emptyWorld =
      Except.error () := rfl

/-- C2 witness: the amended theorem applied at a concrete urgent input. -/
theorem claim2_witness :
    (handle_complaint "2024-01-01 10:00:00" "fire in coach B3"
        GenResult.failure emptyWorld).1.response =
      (if (classify_complaint "fire in coach B3").urgent then
        urgentFallback (classify_complaint "fire in coach B3").reason
          "2024-01-01 10:00:00"
      else normalFallback "2024-01-01 10:00:00")
    ∧ (handle_complaint "2024-01-01 10:00:00" "fire in coach B3"
        GenResult.failure emptyWorld).1.response ≠ ""
    ∧ pyContains (handle_complaint "2024-01-01 10:00:00" "fire in coach B3"
        GenResult.failure emptyWorld).1.response "2024-01-01 10:00:00" = true
    ∧ ((classify_complaint "fire in coach B3").urgent = true →
        pyContains (handle_complaint "2024-01-01 10:00:00" "fire in coach B3"
          GenResult.failure emptyWorld).1.response
          (classify_complaint "fire in coach B3").reason = true) :=
  claim2_fallback_reply "2024-01-01 10:00:00" "fire in coach B3" emptyWorld
    (by decide)

theorem foldl_save_log_entries {α : Type} (es : List α) :
    ∀ l : List α,
      es.foldl save_log (FileState.entries l) = FileState.entries (l ++ es) := by
  induction es with
  | nil => intro l; simp
  | cons e rest ih =>
    intro l
    have hstep : save_log (FileState.entries l) e = FileState.entries (l ++ [e]) :=
      rfl
    simp only [List.foldl_cons, hstep, ih]
    simp

/-- C3: starting from a missing or an empty log file, appending the entries
of `es` one at a time with `save_log` and then reading the category yields
exactly the appended entries, oldest first. -/
theorem claim3_append_read_roundtrip {α : Type} (f : FileState α)
    (es : List α) (h : f = FileState.missing ∨ f = FileState.entries []) :
    readLog (es.foldl save_log f) = es
    ∧ (readLog (es.foldl save_log f)).length = es.length := by
  have hread : readLog (es.foldl save_log f) = es := by
    rcases h with hf | hf <;> subst hf
    · cases es with
      | nil => rfl
      | cons e rest =>
        have h1 : (e :: rest).foldl save_log (FileState.missing : FileState α)
            = rest.foldl save_log (FileState.entries [e]) := rfl
        rw [h1, foldl_save_log_entries]
        rfl
    · rw [foldl_save_log_entries]
      rfl
  exact ⟨hread, by rw [hread]⟩

/-- C3 witness: three appends starting from a missing file. -/
theorem claim3_witness :
    readLog ([1, 2, 3].foldl save_log (FileState.missing : FileState Nat)) =
      [1, 2, 3]
    ∧ (readLog ([1, 2, 3].foldl save_log
        (FileState.missing : FileState Nat))).length = [1, 2, 3].length :=
  claim3_append_read_roundtrip FileState.missing [1, 2, 3] (Or.inl rfl)

/-- C4 counterexample: the claim as stated fails for the history-query read:
on a log file whose contents fail to parse as JSON, `get_logs` answers with
the 500 error response, not with an empty list. -/
theorem claim4_counterexample :
    get_logs "chat" (FileState.corrupt : FileState LogEntry) =
      LogsResult.serverError
    ∧ get_logs "chat" (FileState.corrupt : FileState LogEntry) ≠
        LogsResult.ok [] := by
  exact ⟨rfl, by decide⟩

/-- C4 (amended): on a log file whose contents fail to parse as JSON,
`save_log` treats the category as empty and produces the single-element
array of the new entry, `get_complaint_stats` returns the all-zero counts,
and the read internal to the store treats the file as empty; the
history-query endpoint `get_logs`, however, tolerates only a missing file
(empty success) and surfaces a parse failure as an error response. -/
theorem claim4_corrupt_recovery (e : LogEntry) (today : String) :
    save_log FileState.corrupt e = FileState.entries [e]
    ∧ get_complaint_stats FileState.corrupt today = zeroStats
    ∧ readLog (FileState.corrupt : FileState LogEntry) = []
    ∧ get_logs "chat" (FileState.corrupt : FileState LogEntry) =
        LogsResult.serverError
    ∧ get_logs "chat" (FileState.missing : FileState LogEntry) =
        LogsResult.ok [] :=
  ⟨rfl, rfl, rfl, rfl, rfl⟩

theorem countP_partition {α : Type} (p : α → Bool) (l : List α) :
    l.countP p + l.countP (fun a => !p a) = l.length := by
  induction l with
  | nil => rfl
  | cons a t ih => cases hp : p a <;> simp [List.countP_cons, hp] <;> omega

/-- C5: `get_complaint_stats` reports the entry count as total, partitions
the entries by their urgent flag (so urgent plus normal equals total),
counts as today the entries whose timestamp starts with the current date
string, and returns the all-zero counts when the chat log is missing or
unreadable. -/
theorem claim5_stats_counts (l : List LogEntry) (today : String) :
    (get_complaint_stats (FileState.entries l) today).total_complaints =
      l.length
    ∧ (get_complaint_stats (FileState.entries l) today).urgent_complaints =
        (l.filter (fun e => e.urgent)).length
    ∧ (get_complaint_stats (FileState.entries l) today).normal_complaints =
        (l.filter (fun e => !e.urgent)).length
    ∧ (get_complaint_stats (FileState.entries l) today).urgent_complaints +
        (get_complaint_stats (FileState.entries l) today).normal_complaints =
        (get_complaint_stats (FileState.entries l) today).total_complaints
    ∧ (get_complaint_stats (FileState.entries l) today).today_complaints =
        (l.filter (fun e => pyStartsWith e.timestamp today)).length
    ∧ get_complaint_stats FileState.missing today = zeroStats
    ∧ get_complaint_stats FileState.corrupt today = zeroStats :=
  ⟨rfl, List.countP_eq_length_filter _ _, List.countP_eq_length_filter _ _,
    countP_partition _ l, List.countP_eq_length_filter _ _, rfl, rfl⟩

/-- C9: the stats call is read-only (it hands the world back unchanged), so
two consecutive calls with no intervening write and the same current date
return identical results. -/
theorem claim9_stats_idempotent (w : World) (today : String) :
    (statsOp w today).2 = w
    ∧ (statsOp (statsOp w today).2 today).1 = (statsOp w today).1 :=
  ⟨rfl, rfl⟩

theorem readLog_save_log {α : Type} (f : FileState α) (e : α) :
    readLog (save_log f e) = readLog f ++ [e] := by
  cases f <;> rfl

/-- C6: the summary entry written by `handle_complaint` has exactly the
fixed format: for urgent classifications the string `URGENT: `, the reason
with its first letter capitalized, ` issue - `, the first 60 characters of
the complaint and `...`; for normal classifications `NORMAL: `, the first
60 characters of the complaint and `...`. -/
theorem claim6_summary_format (now prompt : String) (gen : GenResult)
    (w : World) :
    ((classify_complaint prompt).urgent = true →
      readLog (handle_complaint now prompt gen w).2.urgent_log =
        readLog w.urgent_log ++
          [{ timestamp := now,
             summary := "URGENT: " ++
               pyCapitalize (classify_complaint prompt).reason ++
               " issue - " ++ pyTake 60 prompt ++ "..." }])
    ∧ ((classify_complaint prompt).urgent = false →
      readLog (handle_complaint now prompt gen w).2.normal_log =
        readLog w.normal_log ++
          [{ timestamp := now,
             summary := "NORMAL: " ++ pyTake 60 prompt ++ "..." }]) := by
  constructor <;> intro hu <;>
    simp [handle_complaint, hu, urgentSummary, normalSummary, readLog_save_log]

/-- C6 witness: an urgent complaint appends the formatted urgent summary. -/
theorem claim6_witness :
    readLog (handle_complaint "2024-01-01 10:00:00"
        "There was a fire in coach B3" GenResult.failure emptyWorld).2.urgent_log =
      readLog emptyWorld.urgent_log ++
        [{ timestamp := "2024-01-01 10:00:00",
           summary := "URGENT: " ++
             pyCapitalize (classify_complaint "There was a fire in coach B3").reason ++
             " issue - " ++ pyTake 60 "There was a fire in coach B3" ++ "..." }] :=
  (claim6_summary_format "2024-01-01 10:00:00" "There was a fire in coach B3"
    GenResult.failure emptyWorld).1 (by decide)

/-- C7: every call of `handle_complaint` performs exactly two log appends:
the full record onto the chat log, and one summary onto the urgent log when
the classification is urgent, else onto the normal log; the other summary
log and the emergency log are left unchanged. -/
theorem claim7_exactly_two_appends (now prompt : String) (gen : GenResult)
    (w : World) :
    (handle_complaint now prompt gen w).2.chat_log =
      save_log w.chat_log
        { timestamp := now, complaint := prompt,
          response := (handle_complaint now prompt gen w).1.response,
          urgent := (classify_complaint prompt).urgent,
          reason := (classify_complaint prompt).reason }
    ∧ ((classify_complaint prompt).urgent = true →
        (handle_complaint now prompt gen w).2.urgent_log =
          save_log w.urgent_log
            { timestamp := now,
              summary := urgentSummary (classify_complaint prompt).reason prompt }
        ∧ (handle_complaint now prompt gen w).2.normal_log = w.normal_log)
    ∧ ((classify_complaint prompt).urgent = false →
        (handle_complaint now prompt gen w).2.normal_log =
          save_log w.normal_log
            { timestamp := now, summary := normalSummary prompt }
        ∧ (handle_complaint now prompt gen w).2.urgent_log = w.urgent_log)
    ∧ (handle_complaint now prompt gen w).2.emergency_log = w.emergency_log := by
  refine ⟨?_, fun hu => ⟨?_, ?_⟩, fun hu => ⟨?_, ?_⟩, ?_⟩
  · cases hu : (classify_complaint prompt).urgent <;>
      simp [handle_complaint, hu]
  · simp [handle_complaint, hu]
  · simp [handle_complaint, hu]
  · simp [handle_complaint, hu]
  · simp [handle_complaint, hu]
  · cases hu : (classify_complaint prompt).urgent <;>
      simp [handle_complaint, hu]

/-- C7 witness: the frame conjuncts at a concrete normal complaint. -/
theorem claim7_witness :
    (handle_complaint "2024-01-01 10:00:00" "the washroom was dirty"
        GenResult.failure emptyWorld).2.normal_log =
      save_log emptyWorld.normal_log
        { timestamp := "2024-01-01 10:00:00",
          summary := normalSummary "the washroom was dirty" }
    ∧ (handle_complaint "2024-01-01 10:00:00" "the washroom was dirty"
        GenResult.failure emptyWorld).2.urgent_log = emptyWorld.urgent_log :=
  (claim7_exactly_two_appends "2024-01-01 10:00:00" "the washroom was dirty"
    GenResult.failure emptyWorld).2.2.1 (by decide)

/-- C8: for non-empty escalation text, whenever the route completes (the
imported handler is unavailable, or its backend call succeeds),
`emergency_alert` answers with the success response carrying urgent true and
reason hardcoded to `emergency` regardless of the classifier verdict, a
reference id equal to `EMR-` plus the timestamp with spaces replaced by
dashes and colons removed, and it appends exactly one emergency record with
type `EMERGENCY`, status `ESCALATED` and priority `CRITICAL` to the
dedicated emergency log. -/
theorem claim8_emergency_escalation (timestamp ts2 raw : String)
    (avail : Bool) (gen : GenResult) (w : World)
    (hne : pyStrip raw ≠ "")
    (hok : avail = false ∨ gen ≠ GenResult.failure) :
    EmergencyResult.isOk (emergency_alert timestamp ts2 raw avail gen w).1 =
      true
    ∧ EmergencyResult.urgentOf
        (emergency_alert timestamp ts2 raw avail gen w).1 = true
    ∧ EmergencyResult.reasonOf
        (emergency_alert timestamp ts2 raw avail gen w).1 = "emergency"
    ∧ EmergencyResult.refOf
        (emergency_alert timestamp ts2 raw avail gen w).1 =
        "EMR-" ++ pyReplace (pyReplace timestamp " " "-") ":" ""
    ∧ readLog (emergency_alert timestamp ts2 raw avail gen w).2.emergency_log =
        readLog w.emergency_log ++
          [{ timestamp := timestamp, complaint := pyStrip raw,
             type := "EMERGENCY", status := "ESCALATED",
             priority := "CRITICAL" }] := by
  have hcond : (pyStrip raw = "") = False := eq_false hne
  cases avail with
  | false =>
    simp [emergency_alert, hcond, EmergencyResult.isOk,
      EmergencyResult.urgentOf, EmergencyResult.reasonOf,
      EmergencyResult.refOf, referenceId, readLog_save_log]
  | true =>
    cases gen with
    | failure =>
      rcases hok with h | h
      · cases h
      · exact absurd rfl h
    | ok content =>
      cases hu : (classify_complaint (pyStrip raw)).urgent <;>
        simp [emergency_alert, hcond, handle_complaint_railway, hu,
          EmergencyResult.isOk, EmergencyResult.urgentOf,
          EmergencyResult.reasonOf, EmergencyResult.refOf, referenceId,
          readLog_save_log]

/-- C8 counterexample: the claim as stated fails when the imported handler
is loaded and its backend call raises: the route answers with the 500 error
response instead of the success payload (the emergency record was appended
nevertheless before the handler ran). -/
theorem claim8_counterexample :
    (emergency_alert "2025-01-02 03:04:05" "2025-01-02 03:04:05"
        "explosion near platform 2" true GenResult.failure emptyWorld).1 =
      EmergencyResult.serverError
    ∧ EmergencyResult.isOk (emergency_alert "2025-01-02 03:04:05"
        "2025-01-02 03:04:05" "explosion near platform 2" true
        GenResult.failure emptyWorld).1 = false
    ∧ readLog (emergency_alert "2025-01-02 03:04:05" "2025-01-02 03:04:05"
        "explosion near platform 2" true GenResult.failure
        emptyWorld).2.emergency_log =
        [{ timestamp := "2025-01-02 03:04:05",
           complaint := "explosion near platform 2",
           type := "EMERGENCY", status := "ESCALATED",
           priority := "CRITICAL" }] := by
  refine ⟨?_, ?_, ?_⟩ <;> rfl

/-- C8 witness: a concrete escalation with the handler unavailable. -/
theorem claim8_witness :
    EmergencyResult.isOk (emergency_alert "2025-01-02 03:04:05"
        "2025-01-02 03:04:05" "explosion near platform 2" false
        GenResult.failure emptyWorld).1 = true
    ∧ EmergencyResult.urgentOf (emergency_alert "2025-01-02 03:04:05"
        "2025-01-02 03:04:05" "explosion near platform 2" false
        GenResult.failure emptyWorld).1 = true
    ∧ EmergencyResult.reasonOf (emergency_alert "2025-01-02 03:04:05"
        "2025-01-02 03:04:05" "explosion near platform 2" false
        GenResult.failure emptyWorld).1 = "emergency"
    ∧ EmergencyResult.refOf (emergency_alert "2025-01-02 03:04:05"
        "2025-01-02 03:04:05" "explosion near platform 2" false
        GenResult.failure emptyWorld).1 =
        "EMR-" ++ pyReplace (pyReplace "2025-01-02 03:04:05" " " "-") ":" ""
    ∧ readLog (emergency_alert "2025-01-02 03:04:05" "2025-01-02 03:04:05"
        "explosion near platform 2" false GenResult.failure
        emptyWorld).2.emergency_log =
        readLog emptyWorld.emergency_log ++
          [{ timestamp := "2025-01-02 03:04:05",
             complaint := pyStrip "explosion near platform 2",
             type := "EMERGENCY", status := "ESCALATED",
             priority := "CRITICAL" }] :=
  claim8_emergency_escalation "2025-01-02 03:04:05" "2025-01-02 03:04:05"
    "explosion near platform 2" false GenResult.failure emptyWorld
    (by decide) (Or.inl rfl)

/-- C10: for the log types of the route dict, `get_logs` on a missing file
succeeds with the empty list, and on a parsed array succeeds with at most
the 50 most recent entries, newest first; any other log type is rejected as
an invalid-input error. -/
theorem claim10_logs_query {α : Type} (log_type : String) (l : List α) :
    ((log_type = "chat" ∨ log_type = "urgent" ∨ log_type = "normal") →
        get_logs log_type (FileState.missing : FileState α) = LogsResult.ok []
        ∧ get_logs log_type (FileState.entries l) =
            LogsResult.ok (l.reverse.take 50)
        ∧ (l.reverse.take 50).length ≤ 50)
    ∧ (¬(log_type = "chat" ∨ log_type = "urgent" ∨ log_type = "normal") →
        get_logs log_type (FileState.entries l) = LogsResult.invalidType
        ∧ get_logs log_type (FileState.missing : FileState α) =
            LogsResult.invalidType) := by
  have hmem : (log_type ∈ log_types) ↔
      (log_type = "chat" ∨ log_type = "urgent" ∨ log_type = "normal") := by
    simp [log_types]
  constructor
  · intro h
    have hm : log_type ∈ log_types := hmem.mpr h
    refine ⟨by simp [get_logs, hm, fetch_logs], ?_, ?_⟩
    · simp only [get_logs, if_pos hm, fetch_logs]
      congr 1
      by_cases hl : l.length > 50
      · rw [if_pos hl]
        exact List.take_reverse.symm
      · rw [if_neg hl]
        have hlen : l.reverse.length ≤ 50 := by
          rw [List.length_reverse]; omega
        rw [List.take_of_length_le hlen]
    · rw [List.length_take]
      exact min_le_left _ _
  · intro h
    have hm : log_type ∉ log_types := fun c => h (hmem.mp c)
    exact ⟨by simp [get_logs, hm], by simp [get_logs, hm]⟩

/-- C10 witness: the chat type on a missing file and on a three-entry
array, and the rejection of an unknown type. -/
theorem claim10_witness :
    get_logs "chat" (FileState.missing : FileState Nat) = LogsResult.ok []
    ∧ get_logs "chat" (FileState.entries [1, 2, 3]) = LogsResult.ok [3, 2, 1]
    ∧ get_logs "emergency" (FileState.entries ([1, 2, 3] : List Nat)) =
        LogsResult.invalidType := by
  have h1 := (claim10_logs_query "chat" [1, 2, 3]).1 (Or.inl rfl)
  have h2 := (claim10_logs_query "emergency" ([1, 2, 3] : List Nat)).2
    (by decide)
  exact ⟨h1.1, by rw [h1.2.1]; rfl, h2.1⟩

end Railway
